import Mathlib

/-!
Shallow embedding of the rule-based supply/market decision pipeline of
`Backend/supply_market_services.py` (the copy under `api/services/api_services.py`
is line-for-line identical in every function modelled here).

Modelling conventions:
* Python floats are modelled as `ℚ`; dates as `Int` (ordinal day numbers).
* `round(x, 2)` / `round(x, 1)` are modelled as `round2` / `round1` below using
  Mathlib's `round`.  Python rounds ties to even while `round` rounds half up;
  every fact proved here only uses monotonicity of rounding and exactness on
  values that are integers after scaling, where the two semantics agree.
* `np.random.normal` / `np.random.uniform` draws are modelled as explicit inputs
  (`noise`, `u`): the services are deterministic functions of indicators plus
  the drawn values.
* Operations that can raise in Python (`max` of an empty sequence, float
  division by zero) are embedded as `Except StageError _`; the error
  constructors distinguish the generic Python exceptions actually raised from
  the specific error kinds named by the specification (which the code never
  produces).
-/

/-- Python `round(x, 2)` on the rationals: scale by 100, round, scale back. -/
def round2 (x : ℚ) : ℚ := (round (x * 100) : ℤ) / 100

/-- Python `round(x, 1)` on the rationals: scale by 10, round, scale back. -/
def round1 (x : ℚ) : ℚ := (round (x * 10) : ℤ) / 10

/-- Error outcomes a stage can surface.  `valueError` and `zeroDivisionError`
model the generic Python exceptions (`max()` of an empty sequence, float
division by zero); `emptySeries`, `invalidRange`, `invalidPrice` are the
specific kinds named by the specification. -/
inductive StageError where
  | emptySeries
  | invalidRange
  | invalidPrice
  | valueError
  | zeroDivisionError
deriving DecidableEq

/-- `market_indicators` dict of `CostForecastService.predict`. -/
structure MarketIndicators where
  global_price_anomaly : ℚ
  shipping_index : ℚ
  insurance_risk_index : ℚ
  supply_chain_stress_index : ℚ
deriving DecidableEq

/-- `base_costs.get(commodity_id, 600)` in `CostForecastService.predict`. -/
def baseCost (commodity_id : String) : ℚ :=
  if commodity_id = "wheat" then 550
  else if commodity_id = "sugar" then 750
  else if commodity_id = "oil" then 1500
  else 600

/-- The `while current <= end_date` loop of `CostForecastService.predict`:
dates from `start` in 30-day steps while still at most `stop`. -/
def genDates (start stop : Int) : List Int :=
  if h : start ≤ stop then start :: genDates (start + 30) stop else []
termination_by (stop + 30 - start).toNat
decreasing_by omega

/-- The `drivers` dict argmax of `CostForecastService.predict`; Python
`max(drivers, key=drivers.get)` keeps the first key attaining the maximum,
scanning in insertion order. -/
def mainDriver (m : MarketIndicators) : String :=
  let b0 : String × ℚ := ("Anomaly_Price_Global", |m.global_price_anomaly|)
  let b1 := if m.shipping_index > b0.2 then ("Index_Cost_Shipping", m.shipping_index) else b0
  let b2 := if m.insurance_risk_index * 100 > b1.2 then
    ("Premium_Insurance_Risk_War", m.insurance_risk_index * 100) else b1
  let b3 := if m.supply_chain_stress_index > b2.2 then
    ("Index_Stress_Chain_Supply", m.supply_chain_stress_index) else b2
  b3.1

/-- `round(max(0.6, 0.95 - (i * 0.05)), 2)`: the confidence at step `i`. -/
def confScore (i : ℕ) : ℚ := round2 (max (6/10) (95/100 - (i : ℚ) * (5/100)))

/-- One element of the `predictions` list of `CostForecastService.predict`. -/
structure CostPrediction where
  date : Int
  predicted_landed_cost_usd : ℚ
  confidence_score : ℚ
  main_cost_driver : String
deriving DecidableEq

/-- The `for i, pred_date in enumerate(dates)` loop body of
`CostForecastService.predict`, with the normal perturbation supplied as
`noise i`. -/
def buildPreds (base : ℚ) (m : MarketIndicators) (noise : ℕ → ℚ) :
    ℕ → List Int → List CostPrediction
  | _, [] => []
  | i, d :: ds =>
    { date := d
      predicted_landed_cost_usd := round2 (base
        + m.global_price_anomaly * (8/10) + m.shipping_index * 2
        + m.insurance_risk_index * 100 + m.supply_chain_stress_index * (12/10)
        + (i : ℚ) * 5 + noise i)
      confidence_score := confScore i
      main_cost_driver := mainDriver m } :: buildPreds base m noise (i + 1) ds

/-- Python `min` over a list; the `[]` case is unreachable in `cfPredict`
(`costs` is never empty) and returns a dummy value. -/
def listMin : List ℚ → ℚ
  | [] => 0
  | h :: t => t.foldl min h

/-- Python `max` over a list; the `[]` case is unreachable in `cfPredict`. -/
def listMax : List ℚ → ℚ
  | [] => 0
  | h :: t => t.foldl max h

/-- `summary` dict of `CostForecastService.predict`. -/
structure ForecastSummary where
  avg_cost : ℚ
  min_cost : ℚ
  max_cost : ℚ
  trend_direction : String
deriving DecidableEq

/-- Return value of `CostForecastService.predict`. -/
structure ForecastResult where
  commodity_id : String
  predictions : List CostPrediction
  summary : ForecastSummary
deriving DecidableEq

/-- `CostForecastService.predict`.  There is no validation of the date range:
when `end_date < start_date` the generated list is empty and the code falls
back to `dates = [start_date]`. -/
def cfPredict (commodity_id : String) (start_date end_date : Int)
    (m : MarketIndicators) (noise : ℕ → ℚ) : ForecastResult :=
  let dates0 := genDates start_date end_date
  let dates := if dates0 = [] then [start_date] else dates0
  let predictions := buildPreds (baseCost commodity_id) m noise 0 dates
  let costs := predictions.map (fun p => p.predicted_landed_cost_usd)
  let first_cost : ℚ := costs.headD 0
  let last_cost : ℚ := costs.getLastD 0
  let trend := if first_cost * (105/100) < last_cost then "rising"
    else if last_cost < first_cost * (95/100) then "falling"
    else "stable"
  { commodity_id := commodity_id
    predictions := predictions
    summary :=
      { avg_cost := round2 (costs.sum / (costs.length : ℚ))
        min_cost := round2 (listMin costs)
        max_cost := round2 (listMax costs)
        trend_direction := trend } }

/-- One `(date, cost)` entry of the `predicted_costs` list consumed by
`EarlyWarningService.analyze`. -/
structure CostPoint where
  date : Int
  cost : ℚ
deriving DecidableEq

/-- One step of Python `max(predicted_costs, key=lambda x: x.cost)`: the
accumulator is replaced only when the candidate is strictly greater. -/
def pstep (b x : CostPoint) : CostPoint := if b.cost < x.cost then x else b

/-- Python `max(h :: t, key=lambda x: x.cost)`: the first point attaining the
maximum cost, in list order. -/
def ewPeak (h : CostPoint) (t : List CostPoint) : CostPoint := t.foldl pstep h

/-- Return value of `EarlyWarningService.analyze`. -/
structure EarlyWarningResult where
  commodity_id : String
  supply_alert_level : String
  expected_increase_percentage : ℚ
  trigger_reason : String
  peak_date : Int
  peak_cost : ℚ
  days_until_peak : Int
  recommended_action : String
deriving DecidableEq

/-- `EarlyWarningService.analyze`.  On an empty series Python's `max` raises a
generic `ValueError` (there is no empty-series validation in the code); a zero
`avg_cost_90d` baseline would raise `ZeroDivisionError` at the division. -/
def ewAnalyze (commodity_id : String) (predicted_costs : List CostPoint)
    (avg_cost_90d : ℚ) (medium_pct high_pct : ℚ) (today : Int) :
    Except StageError EarlyWarningResult :=
  match predicted_costs with
  | [] => .error .valueError
  | h :: t =>
    if avg_cost_90d = 0 then .error .zeroDivisionError
    else
      let peak := ewPeak h t
      let increase_pct := ((peak.cost - avg_cost_90d) / avg_cost_90d) * 100
      let alert_level := if high_pct ≤ increase_pct then "High"
        else if medium_pct ≤ increase_pct then "Medium" else "Low"
      let action := if high_pct ≤ increase_pct then "Consider immediate procurement"
        else if medium_pct ≤ increase_pct then "Monitor closely, prepare contingency plans"
        else "Continue normal operations"
      let trigger := if 20 < increase_pct then
          "Severe cost deviation detected - multiple risk factors converging"
        else if 10 < increase_pct then
          "Shipping index surge combined with global price anomaly"
        else "Normal market fluctuation within expected range"
      .ok { commodity_id := commodity_id
            supply_alert_level := alert_level
            expected_increase_percentage := round1 increase_pct
            trigger_reason := trigger
            peak_date := peak.date
            peak_cost := round2 peak.cost
            days_until_peak := max 0 (peak.date - today)
            recommended_action := action }

/-- `environmental_data` dict of `LocalProductionService.analyze`
(`temperature_anomaly` defaults to 0 and is unused by the code). -/
structure EnvironmentalData where
  ndvi_index : ℚ
  rainfall_anomaly : ℚ
  temperature_anomaly : ℚ
deriving DecidableEq

/-- One entry of the `impact_factors` list. -/
structure ImpactFactor where
  factor : String
  impact : String
  weight : ℚ
deriving DecidableEq

/-- Return value of `LocalProductionService.analyze`. -/
structure ProductionResult where
  region_id : String
  commodity_id : String
  production_outlook : String
  reliability_score : ℚ
  impact_factors : List ImpactFactor
  expected_yield_change_pct : ℚ
deriving DecidableEq

/-- `LocalProductionService.analyze`, with the `np.random.uniform(0, 0.2)`
draw supplied as `u`.  `_reference_date` models the `reference_date`
parameter, which the code never reads. -/
def lpAnalyze (region_id commodity_id : String) (env : EnvironmentalData)
    (seasonal_factor : String) (_reference_date : Int) (u : ℚ) : ProductionResult :=
  let ndvi := env.ndvi_index
  let rainfall := env.rainfall_anomaly
  let ndviScore : ℚ := if 6/10 ≤ ndvi then 8/10 else if 4/10 ≤ ndvi then 5/10 else 2/10
  let ndviImpact := if 6/10 ≤ ndvi then "positive" else if 4/10 ≤ ndvi then "neutral"
    else "negative"
  let rainScore : ℚ := if -50 ≤ rainfall ∧ rainfall ≤ 50 then 8/10
    else if -100 ≤ rainfall ∧ rainfall ≤ 100 then 5/10 else 2/10
  let rainImpact := if -50 ≤ rainfall ∧ rainfall ≤ 50 then "positive"
    else if -100 ≤ rainfall ∧ rainfall ≤ 100 then "neutral" else "negative"
  let seasonScore : ℚ := if seasonal_factor = "planting" then 5/10
    else if seasonal_factor = "growing" then 7/10
    else if seasonal_factor = "harvest" then 9/10 else 5/10
  let overall := ndviScore * (45/100) + rainScore * (35/100) + seasonScore * (20/100)
  let outlook := if 65/100 ≤ overall then "Good"
    else if 4/10 ≤ overall then "Medium" else "Weak"
  let yieldChange := if 65/100 ≤ overall then round1 ((overall - 5/10) * 30)
    else if 4/10 ≤ overall then round1 ((overall - 5/10) * 20)
    else round1 ((overall - 5/10) * 40)
  { region_id := region_id
    commodity_id := commodity_id
    production_outlook := outlook
    reliability_score := round2 (7/10 + u)
    impact_factors :=
      [ { factor := "ndvi_index", impact := ndviImpact, weight := 45/100 },
        { factor := "rainfall_anomaly", impact := rainImpact, weight := 35/100 },
        { factor := "seasonal_factor",
          impact := if seasonScore = 5/10 then "neutral" else "positive",
          weight := 20/100 } ]
    expected_yield_change_pct := yieldChange }

/-- `pricing_data` dict of `CompetitiveHealthService.analyze`. -/
structure PricingData where
  local_market_price : ℚ
  landed_cost : ℚ
  competitor_price_index : ℚ
deriving DecidableEq

/-- Return value of `CompetitiveHealthService.analyze` (the
`pricing_recommendation` sub-dict is flattened into the last three fields). -/
structure HealthResult where
  commodity_id : String
  usd_spread_price_market : ℚ
  margin_pressure_level : String
  gross_margin_pct : ℚ
  competitive_position : String
  action : String
  target_price : ℚ
  rationale : String
deriving DecidableEq

/-- `CompetitiveHealthService.analyze`.  The code performs no validation of
`local_market_price`: a zero price raises `ZeroDivisionError` at the gross
margin division, and any nonzero (including negative) price is processed
silently. -/
def chAnalyze (commodity_id : String) (p : PricingData) :
    Except StageError HealthResult :=
  let local_price := p.local_market_price
  let landed_cost := p.landed_cost
  let competitor_index := p.competitor_price_index
  if local_price = 0 then .error .zeroDivisionError
  else
    let spread := local_price - landed_cost
    let gross_margin := ((local_price - landed_cost) / local_price) * 100
    let pressure := if 15 ≤ gross_margin then "Low"
      else if 10 ≤ gross_margin then "Moderate"
      else if 5 ≤ gross_margin then "High" else "Critical"
    let position := if 105 < competitor_index then "Advantaged"
      else if 95 ≤ competitor_index then "Neutral" else "Disadvantaged"
    let rec3 : String × ℚ × String :=
      if pressure = "High" ∨ pressure = "Critical" then
        if 100 < competitor_index then
          ("increase_prices", round2 (local_price * (105/100)),
            "Competitor prices higher; opportunity to improve margins")
        else
          ("hold_prices", local_price,
            "Competitor prices expected to rise; maintain position")
      else
        ("maintain_strategy", local_price,
          "Current pricing optimal for market conditions")
    .ok { commodity_id := commodity_id
          usd_spread_price_market := round2 spread
          margin_pressure_level := pressure
          gross_margin_pct := round1 gross_margin
          competitive_position := position
          action := rec3.1
          target_price := rec3.2.1
          rationale := rec3.2.2 }

/-- `charsStart p s`: the char list `s` starts with `p`. -/
def charsStart : List Char → List Char → Bool
  | [], _ => true
  | _ :: _, [] => false
  | p :: ps, s :: ss => p = s && charsStart ps ss

/-- `charsSub p s`: `p` occurs as a contiguous run inside `s`. -/
def charsSub (pat : List Char) : List Char → Bool
  | [] => charsStart pat []
  | s :: ss => charsStart pat (s :: ss) || charsSub pat ss

/-- Python `pat in s` on strings: substring containment. -/
def strContains (s pat : String) : Bool := charsSub pat.data s.data

/-- The stage-output fields `StrategicSummaryService.generate` reads from
`api_outputs`. -/
structure ApiOutputs where
  trend_direction : String
  main_cost_driver : String
  supply_alert_level : String
  production_outlook : String
  margin_pressure_level : String
  reliability_score : ℚ
deriving DecidableEq

/-- The `business_context` fields read by the code (`budget_available` is
never read). -/
structure BusinessContext where
  current_inventory_days : ℚ
  urgency_level : String
deriving DecidableEq

/-- `global_risk = min(1.0, 0.3 + 0.3?rising + 0.2?High)`. -/
def globalRiskScore (trend alert : String) : ℚ :=
  min 1 (3/10 + (if trend = "rising" then 3/10 else 0)
    + (if alert = "High" then 2/10 else 0))

/-- `local_risk = min(1.0, 0.2 + 0.4?Weak / 0.2?Medium)`. -/
def localRiskScore (outlook : String) : ℚ :=
  min 1 (2/10 + (if outlook = "Weak" then 4/10
    else if outlook = "Medium" then 2/10 else 0))

/-- `logistic_risk = min(1.0, 0.2 + 0.3?Shipping-in-driver + 0.2?margin-pressure)`. -/
def logisticRiskScore (driver pressure : String) : ℚ :=
  min 1 (2/10 + (if strContains driver "Shipping" then 3/10 else 0)
    + (if pressure = "High" ∨ pressure = "Critical" then 2/10 else 0))

/-- `max(risks, key=risks.get)` over the dict inserted in the order
Global, Local, Logistic: Python `max` keeps the earliest key attaining the
maximum, so the scan is: Local replaces Global only if strictly greater, then
Logistic replaces the current best only if strictly greater. -/
def dominantRisk (g l lo : ℚ) : String :=
  if g < l then (if l < lo then "Logistic" else "Local")
  else (if g < lo then "Logistic" else "Global")

/-- The recommendation ladder of `StrategicSummaryService.generate`:
the `supply_alert_level == 'High'` branch is checked first. -/
def recommendFrom (alert : String) (inventory : ℚ) (trend urgency : String) : String :=
  if alert = "High" then
    (if inventory < 30 then "Buy Now" else "Diversify Suppliers")
  else if trend = "rising" then
    (if urgency = "high" then "Buy Now" else "Delay")
  else "Delay"

/-- The decision fields of `StrategicSummaryService.generate`
(`risk_breakdown` flattened into the three `_risk_score` fields; the
presentation-only `explanation_text`, `action_items` and timestamp metadata
are outside every claim's scope and are not modelled). -/
structure StrategicSummary where
  commodity_id : String
  dominant_risk_type : String
  recommendation : String
  confidence_level : ℚ
  global_risk_score : ℚ
  local_risk_score : ℚ
  logistic_risk_score : ℚ
deriving DecidableEq

/-- `StrategicSummaryService.generate` (decision fields). -/
def ssGenerate (commodity_id : String) (co : ApiOutputs) (bz : BusinessContext) :
    StrategicSummary :=
  let g := globalRiskScore co.trend_direction co.supply_alert_level
  let l := localRiskScore co.production_outlook
  let lo := logisticRiskScore co.main_cost_driver co.margin_pressure_level
  { commodity_id := commodity_id
    dominant_risk_type := dominantRisk g l lo
    recommendation := recommendFrom co.supply_alert_level bz.current_inventory_days
      co.trend_direction bz.urgency_level
    confidence_level := round2 (min 1 (co.reliability_score * (5/10) + 4/10))
    global_risk_score := round2 g
    local_risk_score := round2 l
    logistic_risk_score := round2 lo }

/-! ### Rounding helper lemmas -/

theorem round_q_mono {x y : ℚ} (h : x ≤ y) : round x ≤ round y := by
  rw [round_eq, round_eq]
  exact Int.floor_mono (by linarith)

theorem round2_mono {x y : ℚ} (h : x ≤ y) : round2 x ≤ round2 y := by
  unfold round2
  have h1 : round (x * 100) ≤ round (y * 100) := round_q_mono (by linarith)
  have h2 : ((round (x * 100) : ℤ) : ℚ) ≤ ((round (y * 100) : ℤ) : ℚ) := by
    exact_mod_cast h1
  linarith

theorem round2_fix (x : ℚ) (z : ℤ) (hx : x * 100 = (z : ℚ)) : round2 x = x := by
  unfold round2
  rw [hx, round_intCast]
  exact ((eq_div_iff (by norm_num)).mpr hx).symm

theorem round2_zero : round2 0 = 0 := round2_fix 0 0 (by norm_num)

theorem round2_one : round2 1 = 1 := round2_fix 1 100 (by norm_num)

theorem round2_nonneg {x : ℚ} (h : 0 ≤ x) : 0 ≤ round2 x := by
  have := round2_mono h
  rwa [round2_zero] at this

theorem round2_le_one {x : ℚ} (h : x ≤ 1) : round2 x ≤ 1 := by
  have := round2_mono h
  rwa [round2_one] at this

theorem le_round1 (x : ℚ) (z : ℤ) (h : (z : ℚ) ≤ x * 10) : (z : ℚ) / 10 ≤ round1 x := by
  unfold round1
  have h1 : round ((z : ℚ)) ≤ round (x * 10) := round_q_mono h
  rw [round_intCast] at h1
  have h2 : ((z : ℤ) : ℚ) ≤ ((round (x * 10) : ℤ) : ℚ) := by exact_mod_cast h1
  linarith

theorem round1_le (x : ℚ) (z : ℤ) (h : x * 10 ≤ (z : ℚ)) : round1 x ≤ (z : ℚ) / 10 := by
  unfold round1
  have h1 : round (x * 10) ≤ round ((z : ℚ)) := round_q_mono h
  rw [round_intCast] at h1
  have h2 : ((round (x * 10) : ℤ) : ℚ) ≤ ((z : ℤ) : ℚ) := by exact_mod_cast h1
  linarith

/-! ### Confidence-score lemmas -/

theorem confScore_eq (i : ℕ) : confScore i = max (6/10) (95/100 - (i : ℚ) * (5/100)) := by
  unfold confScore
  rcases le_total (95/100 - (i : ℚ) * (5/100)) (6/10) with h | h
  · rw [max_eq_left h]
    exact round2_fix _ 60 (by norm_num)
  · rw [max_eq_right h]
    refine round2_fix _ (95 - 5 * (i : ℤ)) ?_
    push_cast
    ring

theorem confScore_succ_le (i : ℕ) : confScore (i + 1) ≤ confScore i := by
  rw [confScore_eq, confScore_eq]
  refine max_le_max le_rfl ?_
  push_cast
  linarith

theorem confScore_bounds (i : ℕ) : 6/10 ≤ confScore i ∧ confScore i ≤ 95/100 := by
  rw [confScore_eq]
  constructor
  · exact le_max_left _ _
  · refine max_le (by norm_num) ?_
    have h : (0 : ℚ) ≤ (i : ℚ) * (5/100) := by positivity
    linarith

/-! ### buildPreds lemmas -/

theorem buildPreds_length (b : ℚ) (m : MarketIndicators) (n : ℕ → ℚ) :
    ∀ (ds : List Int) (i : ℕ), (buildPreds b m n i ds).length = ds.length
  | [], _ => rfl
  | _ :: ds, i => by
    simp only [buildPreds, List.length_cons, buildPreds_length b m n ds (i + 1)]

theorem buildPreds_conf_chain (b : ℚ) (m : MarketIndicators) (n : ℕ → ℚ) :
    ∀ (ds : List Int) (i : ℕ),
      List.Chain' (fun x y => y ≤ x)
        ((buildPreds b m n i ds).map (fun p => p.confidence_score))
  | [], _ => by simp [buildPreds]
  | _ :: ds, i => by
    have ih := buildPreds_conf_chain b m n ds (i + 1)
    simp only [buildPreds, List.map_cons]
    refine List.chain'_cons'.mpr ⟨?_, ih⟩
    intro y hy
    cases ds with
    | nil => simp [buildPreds] at hy
    | cons d' ds' =>
      simp only [buildPreds, List.map_cons, List.head?_cons, Option.mem_def,
        Option.some.injEq] at hy
      rw [← hy]
      exact confScore_succ_le i

theorem buildPreds_conf_mem (b : ℚ) (m : MarketIndicators) (n : ℕ → ℚ) :
    ∀ (ds : List Int) (i : ℕ) (x : ℚ),
      x ∈ (buildPreds b m n i ds).map (fun p => p.confidence_score) →
      ∃ k, x = confScore k
  | [], _, x => by simp [buildPreds]
  | _ :: ds, i, x => by
    intro hx
    simp only [buildPreds, List.map_cons, List.mem_cons] at hx
    rcases hx with h | h
    · exact ⟨i, h⟩
    · exact buildPreds_conf_mem b m n ds (i + 1) x h

/-! ### genDates lemmas -/

theorem genDates_nil {start stop : Int} (h : stop < start) : genDates start stop = [] := by
  rw [genDates]
  simp [not_le.mpr h]

/-! ### ewPeak lemmas -/

theorem ewPeak_cons (h a : CostPoint) (t : List CostPoint) :
    ewPeak h (a :: t) = ewPeak (pstep h a) t := rfl

theorem pstep_left_le (h a : CostPoint) : h.cost ≤ (pstep h a).cost := by
  unfold pstep
  split_ifs with hc
  · linarith
  · exact le_refl _

theorem pstep_right_le (h a : CostPoint) : a.cost ≤ (pstep h a).cost := by
  unfold pstep
  split_ifs with hc
  · exact le_refl _
  · exact le_of_not_lt hc

theorem ewPeak_max : ∀ (t : List CostPoint) (h : CostPoint),
    ∀ x ∈ h :: t, x.cost ≤ (ewPeak h t).cost
  | [], h => by
    intro x hx
    rcases List.mem_cons.mp hx with rfl | hx'
    · exact le_refl _
    · cases hx'
  | a :: t, h => by
    intro x hx
    rw [ewPeak_cons]
    have ih := ewPeak_max t (pstep h a)
    have hpk : (pstep h a).cost ≤ (ewPeak (pstep h a) t).cost :=
      ih _ (List.mem_cons_self _ _)
    rcases List.mem_cons.mp hx with rfl | hx'
    · exact le_trans (pstep_left_le x a) hpk
    · rcases List.mem_cons.mp hx' with rfl | hx'' 
    
      · exact le_trans (pstep_right_le h x) hpk
      · exact ih x (List.mem_cons_of_mem _ hx'')

theorem ewPeak_first : ∀ (t : List CostPoint) (h : CostPoint),
    ∃ l₁ l₂, h :: t = l₁ ++ ewPeak h t :: l₂ ∧
      ∀ x ∈ l₁, x.cost < (ewPeak h t).cost
  | [], h => ⟨[], [], rfl, by simp⟩
  | a :: t, h => by
    rw [ewPeak_cons]
    by_cases hc : h.cost < a.cost
    · have hpa : pstep h a = a := by unfold pstep; rw [if_pos hc]
      rw [hpa]
      obtain ⟨l₁, l₂, heq, hlt⟩ := ewPeak_first t a
      refine ⟨h :: l₁, l₂, ?_, ?_⟩
      · simpa using heq
      · intro x hx
        rcases List.mem_cons.mp hx with rfl | hx'
        · have ha := ewPeak_max t a a (List.mem_cons_self _ _)
          linarith
        · exact hlt x hx'
    · have hpa : pstep h a = h := by unfold pstep; rw [if_neg hc]
      rw [hpa]
      obtain ⟨l₁, l₂, heq, hlt⟩ := ewPeak_first t h
      cases l₁ with
      | nil =>
        simp only [List.nil_append] at heq
        have hph : ewPeak h t = h := (List.cons.injEq _ _ _ _ ▸ heq).1.symm
        have hl₂ : l₂ = t := (List.cons.injEq _ _ _ _ ▸ heq).2.symm
        refine ⟨[], a :: t, ?_, by simp⟩
        simp [hph]
      | cons b l₁' =>
        simp only [List.cons_append, List.cons.injEq] at heq
        obtain ⟨hb, ht⟩ := heq
        refine ⟨h :: a :: l₁', l₂, ?_, ?_⟩
        · conv_lhs => rw [ht]
          simp
        · intro x hx
          have hhp : h.cost < (ewPeak h t).cost := by
            have := hlt b (List.mem_cons_self _ _)
            rw [← hb] at this
            exact this
          rcases List.mem_cons.mp hx with rfl | hx'
          · exact hhp
          · rcases List.mem_cons.mp hx' with rfl | hx''
            · exact lt_of_le_of_lt (le_of_not_lt hc) hhp
            · exact hlt x (List.mem_cons_of_mem _ hx'')

/-! ### Strategic-synthesis helper lemmas -/

theorem recommendFrom_buy (alert : String) (inventory : ℚ) (trend urgency : String) :
    recommendFrom alert inventory trend urgency = "Buy Now" ↔
      (alert = "High" ∧ inventory < 30) ∨
      (alert ≠ "High" ∧ trend = "rising" ∧ urgency = "high") := by
  unfold recommendFrom
  split_ifs with h1 h2 h3 h4
  · exact iff_of_true rfl (Or.inl ⟨h1, h2⟩)
  · refine iff_of_false (by decide) ?_
    rintro (⟨-, hlt⟩ | ⟨hne, -, -⟩)
    · exact h2 hlt
    · exact hne h1
  · exact iff_of_true rfl (Or.inr ⟨h1, h3, h4⟩)
  · refine iff_of_false (by decide) ?_
    rintro (⟨hh, -⟩ | ⟨-, -, hu⟩)
    · exact h1 hh
    · exact h4 hu
  · refine iff_of_false (by decide) ?_
    rintro (⟨hh, -⟩ | ⟨-, ht, -⟩)
    · exact h1 hh
    · exact h3 ht

theorem recommendFrom_diversify (alert : String) (inventory : ℚ) (trend urgency : String) :
    recommendFrom alert inventory trend urgency = "Diversify Suppliers" ↔
      alert = "High" ∧ 30 ≤ inventory := by
  unfold recommendFrom
  split_ifs with h1 h2 h3 h4
  · exact iff_of_false (by decide) (fun h => absurd h.2 (not_le.mpr h2))
  · exact iff_of_true rfl ⟨h1, le_of_not_lt h2⟩
  · exact iff_of_false (by decide) (fun h => h1 h.1)
  · exact iff_of_false (by decide) (fun h => h1 h.1)
  · exact iff_of_false (by decide) (fun h => h1 h.1)

theorem recommendFrom_delay (alert : String) (inventory : ℚ) (trend urgency : String) :
    recommendFrom alert inventory trend urgency = "Delay" ↔
      alert ≠ "High" ∧ (trend ≠ "rising" ∨ urgency ≠ "high") := by
  unfold recommendFrom
  split_ifs with h1 h2 h3 h4
  · exact iff_of_false (by decide) (fun h => h.1 h1)
  · exact iff_of_false (by decide) (fun h => h.1 h1)
  · refine iff_of_false (by decide) ?_
    rintro ⟨-, hn | hn⟩
    · exact hn h3
    · exact hn h4
  · exact iff_of_true rfl ⟨h1, Or.inr h4⟩
  · exact iff_of_true rfl ⟨h1, Or.inl h3⟩

theorem dominantRisk_global (g l lo : ℚ) :
    dominantRisk g l lo = "Global" ↔ l ≤ g ∧ lo ≤ g := by
  unfold dominantRisk
  split_ifs with h1 h2 h3
  · exact iff_of_false (by decide) (fun h => absurd h.1 (not_le.mpr h1))
  · exact iff_of_false (by decide) (fun h => absurd h.1 (not_le.mpr h1))
  · exact iff_of_false (by decide) (fun h => absurd h.2 (not_le.mpr h3))
  · exact iff_of_true rfl ⟨le_of_not_lt h1, le_of_not_lt h3⟩

theorem dominantRisk_local (g l lo : ℚ) :
    dominantRisk g l lo = "Local" ↔ g < l ∧ lo ≤ l := by
  unfold dominantRisk
  split_ifs with h1 h2 h3
  · exact iff_of_false (by decide) (fun h => absurd h.2 (not_le.mpr h2))
  · exact iff_of_true rfl ⟨h1, le_of_not_lt h2⟩
  · exact iff_of_false (by decide) (fun h => h1 h.1)
  · exact iff_of_false (by decide) (fun h => h1 h.1)

theorem dominantRisk_logistic (g l lo : ℚ) :
    dominantRisk g l lo = "Logistic" ↔ g < lo ∧ l < lo := by
  unfold dominantRisk
  split_ifs with h1 h2 h3
  · exact iff_of_true rfl ⟨lt_trans h1 h2, h2⟩
  · exact iff_of_false (by decide) (fun h => h2 h.2)
  · exact iff_of_true rfl ⟨h3, lt_of_le_of_lt (le_of_not_lt h1) h3⟩
  · exact iff_of_false (by decide) (fun h => h3 h.1)

/-! ### Risk-score bound lemmas -/

theorem globalRiskScore_bounds (trend alert : String) :
    0 ≤ globalRiskScore trend alert ∧ globalRiskScore trend alert ≤ 1 := by
  unfold globalRiskScore
  refine ⟨le_min (by norm_num) ?_, min_le_left _ _⟩
  split_ifs <;> norm_num

theorem localRiskScore_bounds (outlook : String) :
    0 ≤ localRiskScore outlook ∧ localRiskScore outlook ≤ 1 := by
  unfold localRiskScore
  refine ⟨le_min (by norm_num) ?_, min_le_left _ _⟩
  split_ifs <;> norm_num

theorem logisticRiskScore_bounds (driver pressure : String) :
    0 ≤ logisticRiskScore driver pressure ∧ logisticRiskScore driver pressure ≤ 1 := by
  unfold logisticRiskScore
  refine ⟨le_min (by norm_num) ?_, min_le_left _ _⟩
  split_ifs <;> norm_num

/-! ### Outlook-band lemma for LocalProductionStage -/

theorem band_yield (overall : ℚ) :
    ((if 65/100 ≤ overall then "Good" else if 4/10 ≤ overall then "Medium"
        else "Weak") = "Good" →
      45/10 ≤ (if 65/100 ≤ overall then round1 ((overall - 5/10) * 30)
        else if 4/10 ≤ overall then round1 ((overall - 5/10) * 20)
        else round1 ((overall - 5/10) * 40))) ∧
    ((if 65/100 ≤ overall then "Good" else if 4/10 ≤ overall then "Medium"
        else "Weak") = "Weak" →
      (if 65/100 ≤ overall then round1 ((overall - 5/10) * 30)
        else if 4/10 ≤ overall then round1 ((overall - 5/10) * 20)
        else round1 ((overall - 5/10) * 40)) ≤ -4) := by
  split_ifs with h1 h2
  · constructor
    · intro _
      have hx : ((45 : ℤ) : ℚ) ≤ ((overall - 5/10) * 30) * 10 := by push_cast; linarith
      have h45 := le_round1 _ 45 hx
      push_cast at h45
      linarith
    · intro habs
      exact absurd habs (by decide)
  · exact ⟨fun habs => absurd habs (by decide), fun habs => absurd habs (by decide)⟩
  · constructor
    · intro habs
      exact absurd habs (by decide)
    · intro _
      have h2' : overall < 4/10 := not_le.mp h2
      have hx : ((overall - 5/10) * 40) * 10 ≤ ((-40 : ℤ) : ℚ) := by push_cast; linarith
      have h40 := round1_le _ (-40) hx
      push_cast at h40
      linarith

/-! ## Claims -/

/-- C1 (counterexample): at `start_date = 100`, `end_date = 50` (end before
start), `CostForecastService.predict` returns a prediction list of length 1
instead of failing: there is no `InvalidRange` (or any other) date-range
validation in the code, which falls back to `dates = [start_date]`. -/
theorem c1_counterexample :
    (cfPredict "wheat" 100 50 ⟨0, 0, 0, 0⟩ (fun _ => 0)).predictions.length = 1 := by
  have h : genDates 100 50 = [] := genDates_nil (by norm_num)
  simp [cfPredict, h, buildPreds]

/-- C1 (amended): for every input with `end_date < start_date`,
`CostForecastService.predict` does not fail; it produces exactly one
prediction, dated `start_date`. -/
theorem c1_amended (c : String) (s e : Int) (m : MarketIndicators) (n : ℕ → ℚ)
    (h : e < s) :
    (cfPredict c s e m n).predictions.map (fun p => p.date) = [s] := by
  have h0 : genDates s e = [] := genDates_nil h
  simp [cfPredict, h0, buildPreds]

/-- C1 (witness for the amended claim) at start 100, end 50. -/
theorem c1_witness :
    (cfPredict "wheat" 100 50 ⟨0, 0, 0, 0⟩ (fun _ => 0)).predictions.map
      (fun p => p.date) = [100] :=
  c1_amended "wheat" 100 50 ⟨0, 0, 0, 0⟩ (fun _ => 0) (by norm_num)

/-- C2 (counterexample): with alert = High, inventory 40 ≥ 30, trend = rising
and urgency = high, the code recommends "Diversify Suppliers", although the
claim's first rule (trend = rising and urgency = high ⇒ BuyNow) applies: the
code checks the High-alert branch first and never reaches the trend/urgency
test when the alert is High. -/
theorem c2_counterexample :
    (ssGenerate "wheat" ⟨"rising", "Index_Cost_Shipping", "High", "Good", "Low", 8/10⟩
        ⟨40, "high"⟩).recommendation = "Diversify Suppliers" ∧
    "Diversify Suppliers" ≠ "Buy Now" := by
  constructor
  · norm_num [ssGenerate, recommendFrom]
  · decide

/-- C2 (amended): the recommendation of `StrategicSummaryService.generate` is
BuyNow iff (alert = High and inventory < 30) or (alert ≠ High and
trend = rising and urgency = high); DiversifySuppliers iff (alert = High and
inventory ≥ 30); Delay otherwise — the High-alert branch takes precedence
over the trend/urgency rule. -/
theorem c2_amended (cid : String) (co : ApiOutputs) (bz : BusinessContext) :
    ((ssGenerate cid co bz).recommendation = "Buy Now" ↔
      (co.supply_alert_level = "High" ∧ bz.current_inventory_days < 30) ∨
      (co.supply_alert_level ≠ "High" ∧ co.trend_direction = "rising" ∧
        bz.urgency_level = "high")) ∧
    ((ssGenerate cid co bz).recommendation = "Diversify Suppliers" ↔
      co.supply_alert_level = "High" ∧ 30 ≤ bz.current_inventory_days) ∧
    ((ssGenerate cid co bz).recommendation = "Delay" ↔
      co.supply_alert_level ≠ "High" ∧
        (co.trend_direction ≠ "rising" ∨ bz.urgency_level ≠ "high")) :=
  ⟨recommendFrom_buy _ _ _ _, recommendFrom_diversify _ _ _ _,
    recommendFrom_delay _ _ _ _⟩

/-- C3: for every combination of stage outputs and business context, each of
the three (rounded) risk_breakdown scores produced by
`StrategicSummaryService.generate` lies in the closed interval [0, 1]. -/
theorem c3_risk_breakdown_bounds (cid : String) (co : ApiOutputs) (bz : BusinessContext) :
    (0 ≤ (ssGenerate cid co bz).global_risk_score ∧
      (ssGenerate cid co bz).global_risk_score ≤ 1) ∧
    (0 ≤ (ssGenerate cid co bz).local_risk_score ∧
      (ssGenerate cid co bz).local_risk_score ≤ 1) ∧
    (0 ≤ (ssGenerate cid co bz).logistic_risk_score ∧
      (ssGenerate cid co bz).logistic_risk_score ≤ 1) := by
  have hg := globalRiskScore_bounds co.trend_direction co.supply_alert_level
  have hl := localRiskScore_bounds co.production_outlook
  have hlo := logisticRiskScore_bounds co.main_cost_driver co.margin_pressure_level
  exact ⟨⟨round2_nonneg hg.1, round2_le_one hg.2⟩,
    ⟨round2_nonneg hl.1, round2_le_one hl.2⟩,
    ⟨round2_nonneg hlo.1, round2_le_one hlo.2⟩⟩

/-- C4 (counterexample): at `local_market_price = -100 ≤ 0` the stage does not
fail with `InvalidPrice`; `CompetitiveHealthService.analyze` has no price
validation and silently computes a gross margin from the negative price. -/
theorem c4_counterexample :
    ((-100 : ℚ) ≤ 0) ∧
    chAnalyze "wheat" ⟨-100, 90, 100⟩ ≠ Except.error StageError.invalidPrice := by
  refine ⟨by norm_num, ?_⟩
  norm_num [chAnalyze]
  intro h
  exact Except.noConfusion h

/-- C4 (amended): `CompetitiveHealthService.analyze` never produces an
`InvalidPrice` error: a zero local price surfaces as the generic Python
`ZeroDivisionError` raised by the gross-margin division, and every nonzero
local price — negative prices included — is processed silently to a normal
result. -/
theorem c4_amended (cid : String) (p : PricingData) :
    (p.local_market_price = 0 →
      chAnalyze cid p = Except.error StageError.zeroDivisionError) ∧
    (p.local_market_price ≠ 0 → ∃ r, chAnalyze cid p = Except.ok r) := by
  constructor
  · intro h
    simp only [chAnalyze]
    rw [if_pos h]
  · intro h
    simp only [chAnalyze]
    rw [if_neg h]
    exact ⟨_, rfl⟩

/-- C4 (witness for the amended claim): a zero local price yields the generic
division-by-zero failure, not `InvalidPrice`. -/
theorem c4_witness :
    chAnalyze "wheat" ⟨0, 90, 100⟩ = Except.error StageError.zeroDivisionError :=
  (c4_amended "wheat" ⟨0, 90, 100⟩).1 rfl

/-- C5 (counterexample): on the empty cost series
`EarlyWarningService.analyze` surfaces the generic `ValueError` raised by
Python's `max()` on an empty sequence — not a specific `EmptySeries` error
kind; the code has no empty-series validation. -/
theorem c5_counterexample :
    ewAnalyze "wheat" [] 100 10 15 0 ≠ Except.error StageError.emptySeries ∧
    ewAnalyze "wheat" [] 100 10 15 0 = Except.error StageError.valueError := by
  refine ⟨?_, rfl⟩
  intro h
  have h' : StageError.valueError = StageError.emptySeries := by
    injection h
  exact StageError.noConfusion h'

/-- C5 (amended): for every baseline, thresholds and reference day, the empty
cost series makes `EarlyWarningService.analyze` fail with the generic
`ValueError` of `max()` on an empty sequence. -/
theorem c5_amended (cid : String) (b mp hp : ℚ) (today : Int) :
    ewAnalyze cid [] b mp hp today = Except.error StageError.valueError := rfl

/-- C6 (counterexample): in the series [(date 2, cost 10), (date 1, cost 10)]
both points attain the maximum cost 10, yet the reported peak is the point
with date 2 — the first maximal point in list order — not the one with the
earliest date 1: Python's `max` does not break ties by date. -/
theorem c6_counterexample :
    ewPeak ⟨2, 10⟩ [⟨1, 10⟩] = (⟨2, 10⟩ : CostPoint) ∧
    (⟨1, 10⟩ : CostPoint).cost = (10 : ℚ) ∧
    (ewPeak ⟨2, 10⟩ [⟨1, 10⟩]).cost = (10 : ℚ) ∧
    (1 : Int) < 2 := by
  refine ⟨?_, rfl, ?_, by norm_num⟩
  · norm_num [ewPeak, pstep]
  · norm_num [ewPeak, pstep]

/-- C6 (amended): for every non-empty series the reported peak attains the
maximum cost, and when several points share the maximum the code picks the
first such point in input list order (which is the earliest-dated maximal
point only when the series is sorted by ascending date); the selection is
deterministic for each fixed input list, and `EarlyWarningService.analyze`
reports exactly this point's date and (rounded) cost. -/
theorem c6_amended (h : CostPoint) (t : List CostPoint) :
    (∀ x ∈ h :: t, x.cost ≤ (ewPeak h t).cost) ∧
    (∃ l₁ l₂, h :: t = l₁ ++ ewPeak h t :: l₂ ∧
      ∀ x ∈ l₁, x.cost < (ewPeak h t).cost) ∧
    (∀ (cid : String) (b mp hp : ℚ) (today : Int), b ≠ 0 →
      ∃ r, ewAnalyze cid (h :: t) b mp hp today = Except.ok r ∧
        r.peak_date = (ewPeak h t).date ∧ r.peak_cost = round2 (ewPeak h t).cost) := by
  refine ⟨ewPeak_max t h, ewPeak_first t h, ?_⟩
  intro cid b mp hp today hb
  simp only [ewAnalyze]
  rw [if_neg hb]
  exact ⟨_, rfl, rfl, rfl⟩

/-- C6 (witness for the amended claim): the peak of [(0, 5), (1, 7)] bounds
the cost of the member (1, 7). -/
theorem c6_witness :
    (⟨1, 7⟩ : CostPoint).cost ≤ (ewPeak ⟨0, 5⟩ [⟨1, 7⟩]).cost :=
  (c6_amended ⟨0, 5⟩ [⟨1, 7⟩]).1 ⟨1, 7⟩ (by simp)

/-- C7: for every valid input (start ≤ end, any indicators, any perturbation),
the confidence scores of successive prediction points of
`CostForecastService.predict` are non-increasing, and every confidence score
lies in [0.6, 0.95].  (The hypothesis start ≤ end mirrors the claim; the
property in fact holds for every range.) -/
theorem c7_confidence (c : String) (s e : Int) (m : MarketIndicators) (n : ℕ → ℚ)
    (_hse : s ≤ e) :
    List.Chain' (fun x y => y ≤ x)
      ((cfPredict c s e m n).predictions.map (fun p => p.confidence_score)) ∧
    ∀ x ∈ (cfPredict c s e m n).predictions.map (fun p => p.confidence_score),
      6/10 ≤ x ∧ x ≤ 95/100 := by
  have hp : (cfPredict c s e m n).predictions =
      buildPreds (baseCost c) m n 0
        (if genDates s e = [] then [s] else genDates s e) := rfl
  rw [hp]
  constructor
  · exact buildPreds_conf_chain _ _ _ _ _
  · intro x hx
    obtain ⟨k, rfl⟩ := buildPreds_conf_mem _ _ _ _ _ x hx
    exact confScore_bounds k

/-- C7 (witness): the confidence chain property at a concrete valid range. -/
theorem c7_witness :
    List.Chain' (fun x y => y ≤ x)
      ((cfPredict "wheat" 0 60 ⟨0, 0, 0, 0⟩ (fun _ => 0)).predictions.map
        (fun p => p.confidence_score)) :=
  (c7_confidence "wheat" 0 60 ⟨0, 0, 0, 0⟩ (fun _ => 0) (by norm_num)).1

/-- C8: `dominant_risk_type` is the argmax of the three risk scores with ties
broken by the fixed priority Global > Local > Logistic (Global wins all its
ties, Local wins its tie with Logistic), and `StrategicSummaryService.generate`
computes its `dominant_risk_type` field exactly this way from the three
scores. -/
theorem c8_dominant_argmax :
    (∀ g l lo : ℚ,
      (dominantRisk g l lo = "Global" ↔ l ≤ g ∧ lo ≤ g) ∧
      (dominantRisk g l lo = "Local" ↔ g < l ∧ lo ≤ l) ∧
      (dominantRisk g l lo = "Logistic" ↔ g < lo ∧ l < lo)) ∧
    ∀ (cid : String) (co : ApiOutputs) (bz : BusinessContext),
      (ssGenerate cid co bz).dominant_risk_type =
        dominantRisk (globalRiskScore co.trend_direction co.supply_alert_level)
          (localRiskScore co.production_outlook)
          (logisticRiskScore co.main_cost_driver co.margin_pressure_level) :=
  ⟨fun g l lo => ⟨dominantRisk_global g l lo, dominantRisk_local g l lo,
    dominantRisk_logistic g l lo⟩, fun _ _ _ => rfl⟩

/-- C9: `CostForecastService.predict` never fails because of the commodity
identifier: the base cost is 550 for wheat, 750 for sugar, 1500 for oil, and
silently 600 for every other identifier, and predictions are always
produced. -/
theorem c9_base_cost_fallback :
    baseCost "wheat" = 550 ∧ baseCost "sugar" = 750 ∧ baseCost "oil" = 1500 ∧
    (∀ c : String, c ≠ "wheat" → c ≠ "sugar" → c ≠ "oil" → baseCost c = 600) ∧
    (∀ (c : String) (s e : Int) (m : MarketIndicators) (n : ℕ → ℚ),
      (cfPredict c s e m n).predictions ≠ []) := by
  refine ⟨by simp [baseCost], by simp [baseCost], by simp [baseCost], ?_, ?_⟩
  · intro c h1 h2 h3
    simp only [baseCost]
    rw [if_neg h1, if_neg h2, if_neg h3]
  · intro c s e m n
    have hlen : (cfPredict c s e m n).predictions.length =
        (if genDates s e = [] then [s] else genDates s e).length :=
      buildPreds_length _ _ _ _ _
    intro hnil
    rw [hnil] at hlen
    by_cases hg : genDates s e = []
    · rw [if_pos hg] at hlen
      simp at hlen
    · rw [if_neg hg] at hlen
      exact hg (List.length_eq_zero.mp hlen.symm)

/-- C9 (witness): an identifier outside {wheat, sugar, oil} gets base cost 600
and still yields predictions. -/
theorem c9_witness :
    baseCost "rice" = 600 ∧
    (cfPredict "rice" 0 0 ⟨0, 0, 0, 0⟩ (fun _ => 0)).predictions ≠ [] :=
  ⟨c9_base_cost_fallback.2.2.2.1 "rice" (by decide) (by decide) (by decide),
    c9_base_cost_fallback.2.2.2.2 "rice" 0 0 ⟨0, 0, 0, 0⟩ (fun _ => 0)⟩

/-- C10: for every input to `LocalProductionService.analyze`, outlook Good
forces `expected_yield_change_pct ≥ 4.5` and outlook Weak forces
`expected_yield_change_pct ≤ -4`. -/
theorem c10_outlook_yield (region cid : String) (env : EnvironmentalData)
    (seasonal : String) (rd : Int) (u : ℚ) :
    ((lpAnalyze region cid env seasonal rd u).production_outlook = "Good" →
      45/10 ≤ (lpAnalyze region cid env seasonal rd u).expected_yield_change_pct) ∧
    ((lpAnalyze region cid env seasonal rd u).production_outlook = "Weak" →
      (lpAnalyze region cid env seasonal rd u).expected_yield_change_pct ≤ -4) := by
  simp only [lpAnalyze]
  exact band_yield _

/-- C10 (witness): ndvi 0.7, zero rainfall anomaly and harvest season give
outlook Good with a yield change of at least 4.5. -/
theorem c10_witness :
    (lpAnalyze "YEM-01" "wheat" ⟨7/10, 0, 0⟩ "harvest" 0 0).production_outlook = "Good" ∧
    45/10 ≤ (lpAnalyze "YEM-01" "wheat" ⟨7/10, 0, 0⟩ "harvest" 0 0).expected_yield_change_pct := by
  have hg : (lpAnalyze "YEM-01" "wheat" ⟨7/10, 0, 0⟩ "harvest" 0 0).production_outlook = "Good" := by
    have hp : ¬("harvest" : String) = "planting" := by decide
    have hgr : ¬("harvest" : String) = "growing" := by decide
    norm_num [lpAnalyze, hp, hgr]
  exact ⟨hg, (c10_outlook_yield "YEM-01" "wheat" ⟨7/10, 0, 0⟩ "harvest" 0 0).1 hg⟩
